import Mathlib

/-!
Shallow embedding of the plan–execute–reflect agent loop of
`agent/graph.py` (class `AgentGraph`) and the tool layer of
`agent/tools.py`.

The language-model service (`ChatOllama.ainvoke`) and the remote
tool-execution service are external collaborators: each call to them is
modelled as an oracle value supplied to the node functions.  A call that
raises is an `Except.error` carrying the exception message; a call that
returns is `Except.ok`.  Everything done by the repository's own code —
plan-line parsing, the registry lookup, the branch structure of each
node, the LangGraph channel merge, the loop and its termination policy —
is embedded directly from the source.
-/

/-- One chat message, as the `{"role": ..., "content": ...}` dicts of
`AgentState.messages`. -/
structure Message where
  role : String
  content : String
deriving Repr, DecidableEq

/-- One entry of the `tool_results` list.  The Python code builds these
dicts with an optional `step` key (absent only on the no-plan branch),
an optional `tool` key, a `result` key on success (the spec calls this
field `output`) and an `error` key on failure. -/
structure StepResult where
  step : Option String
  tool : Option String
  output : Option String
  error : Option String
deriving Repr, DecidableEq

/-- The LangGraph `AgentState` TypedDict of `agent/graph.py`. -/
structure AgentState where
  messages : List Message
  currentTask : String
  plan : List String
  toolResults : List StepResult
  iteration : Nat
  finished : Bool
deriving Repr, DecidableEq

/-- A node's return value: a partial update of `AgentState`.  Keys the
node does not return are `none` / `[]` and leave the state unchanged. -/
structure NodeUpdate where
  messages : List Message := []
  plan : Option (List String) := none
  toolResults : List StepResult := []
  iteration : Option Nat := none
  finished : Option Bool := none
deriving Repr, DecidableEq

/-- LangGraph channel merge: `messages` and `tool_results` are
`Annotated[..., operator.add]` channels, so a returned list is appended;
`plan`, `iteration` and `finished` are last-value channels, so a
returned value overwrites and an absent key keeps the old value. -/
def applyUpdate (s : AgentState) (u : NodeUpdate) : AgentState :=
  { messages := s.messages ++ u.messages
    currentTask := s.currentTask
    plan := u.plan.getD s.plan
    toolResults := s.toolResults ++ u.toolResults
    iteration := u.iteration.getD s.iteration
    finished := u.finished.getD s.finished }

/-- The tool registry keys of `AVAILABLE_TOOLS` in `agent/tools.py`
(registration order). -/
def AVAILABLE_TOOLS : List String :=
  ["docker_list_containers", "docker_exec_command", "filesystem_read",
   "filesystem_write", "filesystem_list"]

/-- Python `str.strip()`: drop whitespace from both ends.  Implemented
structurally over the character list so that proofs and witnesses can
evaluate it. -/
def pyStrip (s : String) : String :=
  ⟨((s.data.dropWhile Char.isWhitespace).reverse.dropWhile
      Char.isWhitespace).reverse⟩

/-- Python `str.upper()` (the inputs at issue are ASCII). -/
def pyUpper (s : String) : String :=
  ⟨s.data.map Char.toUpper⟩

/-- Split a character list on a separator character, keeping empty
pieces, as Python `str.split(sep)` does. -/
def splitOnCharList (c : Char) : List Char → List (List Char)
  | [] => [[]]
  | x :: xs =>
    if x = c then [] :: splitOnCharList c xs
    else
      match splitOnCharList c xs with
      | [] => [[x]]
      | p :: ps => (x :: p) :: ps

/-- Python `text.split('\n')`. -/
def splitLines (s : String) : List String :=
  (splitOnCharList (Char.ofNat 10) s.data).map String.mk

/-- Python `hay.startswith(needle)`. -/
def pyStartsWith (hay needle : String) : Bool :=
  needle.data.isPrefixOf hay.data

/-- `"1."`, `"2."`, …, `"19."` — the ordinal test of `_plan_node`:
`any(line.strip().startswith(f"{i}.") for i in range(1, 20))`. -/
def startsWithOrdinal (l : String) : Bool :=
  (List.range' 1 19).any (fun i => pyStartsWith l (toString i ++ "."))

/-- Plan parsing of `_plan_node`: keep the stripped lines of the
response that are nonempty and begin with an ordinal `1.`–`19.`. -/
def parsePlan (planText : String) : List String :=
  ((splitLines planText).map pyStrip).filter
    (fun l => !(l == "") && startsWithOrdinal l)

/-- `AgentGraph._plan_node`.  `llm` is the outcome of
`self.llm.ainvoke(prompt)`: the generated text, or the exception
message. -/
def planNode (s : AgentState) (llm : Except String String) : NodeUpdate :=
  match llm with
  | .ok planText =>
      { plan := some (parsePlan planText)
        messages := [⟨"assistant", "Plan: " ++ planText⟩] }
  | .error e =>
      { plan := some ["Error in planning"]
        messages := [⟨"assistant", "Planning error: " ++ e⟩] }

/-- The parsed tool decision `{"tool": ..., "parameters": {...}}`:
`tool_decision.get('tool')` may be absent, and the parameters are an
opaque key–value list. -/
structure ToolDecision where
  tool : Option String
  parameters : List (String × String)
deriving Repr, DecidableEq

/-- `AgentGraph._execute_node`.  `toolChoice` is the outcome of the
`ainvoke` + `json.loads` pipeline (an exception from either is the
`.error` case); `dispatch` is the outcome of
`tool_func(self.mcp_client, **parameters)` for a given name and
parameters — `.error` when that call raises.  Both sit inside the same
`try`, whose `except` records the message as a step error. -/
def executeNode (s : AgentState) (toolChoice : Except String ToolDecision)
    (dispatch : String → List (String × String) → Except String String) :
    NodeUpdate :=
  if s.plan = [] then
    { toolResults := [⟨none, none, none, some "No plan available"⟩] }
  else
    let currentIteration := s.iteration
    if s.plan.length ≤ currentIteration then
      { finished := some true }
    else
      let currentStep := s.plan.getD currentIteration ""
      match toolChoice with
      | .error e =>
          { toolResults := [⟨some currentStep, none, none, some e⟩]
            iteration := some (currentIteration + 1) }
      | .ok td =>
          match td.tool with
          | none =>
              { toolResults :=
                  [⟨some currentStep, none, none, some "Unknown tool: None"⟩]
                iteration := some (currentIteration + 1) }
          | some toolName =>
              if toolName ∈ AVAILABLE_TOOLS then
                match dispatch toolName td.parameters with
                | .ok result =>
                    { toolResults :=
                        [⟨some currentStep, some toolName, some result, none⟩]
                      iteration := some (currentIteration + 1) }
                | .error e =>
                    { toolResults := [⟨some currentStep, none, none, some e⟩]
                      iteration := some (currentIteration + 1) }
              else
                { toolResults :=
                    [⟨some currentStep, none, none,
                      some ("Unknown tool: " ++ toolName)⟩]
                  iteration := some (currentIteration + 1) }

/-- The `max_iterations = 10` constant of `_reflect_node`. -/
def MAX_ITERATIONS : Nat := 10

/-- Search for `needle` as a consecutive run anywhere in `hay`. -/
def containsSub (hay needle : List Char) : Bool :=
  match hay with
  | [] => needle.isEmpty
  | _ :: t => needle.isPrefixOf hay || containsSub t needle

/-- Python `needle in hay`: substring containment. -/
def strContains (hay needle : String) : Bool :=
  containsSub hay.data needle.data

/-- `AgentGraph._reflect_node`.  `llm` is the outcome of the reflection
`ainvoke` call. -/
def reflectNode (s : AgentState) (llm : Except String String) : NodeUpdate :=
  if s.plan.length ≤ s.iteration ∨ MAX_ITERATIONS ≤ s.iteration then
    { finished := some true }
  else
    match llm with
    | .ok content =>
        let decision := pyUpper (pyStrip content)
        if strContains decision "DONE" then
          { finished := some true }
        else
          { finished := some false }
    | .error _ => { finished := some true }

/-- `AgentGraph._should_continue`. -/
def shouldContinue (s : AgentState) : String :=
  if s.finished then "end" else "continue"

/-- The unconditional edges of `_build_graph`:
`plan → execute → reflect`. -/
def staticEdges : List (String × String) :=
  [("plan", "execute"), ("execute", "reflect")]

/-- The conditional-edge mapping of `_build_graph` out of `reflect`:
`{"continue": "plan", "end": END}`. -/
def conditionalEdges : List (String × String) :=
  [("continue", "plan"), ("end", "END")]

/-- The entry point set by `workflow.set_entry_point("plan")`. -/
def entryPoint : String := "plan"

/-- The node the graph visits after `reflect`, per `_should_continue`
and the conditional-edge mapping. -/
def nextNodeAfterReflect (s : AgentState) : String :=
  ((conditionalEdges.lookup (shouldContinue s)).getD "END")

/-- The MCP server's reply to a `docker_list` call as `call_tool`
returns it: either a dict with an `error` key (any transport failure is
normalized to `{"error": msg}`) or a payload whose `containers` list
defaults to `[]`. -/
structure DockerListResponse where
  error : Option String
  containers : List String
deriving Repr, DecidableEq

/-- `docker_list_containers` of `agent/tools.py`, applied to the
normalized MCP reply. -/
def docker_list_containers (resp : DockerListResponse) : String :=
  match resp.error with
  | some e => "Error: " ++ e
  | none =>
      "Found " ++ toString resp.containers.length ++ " containers: " ++
        toString resp.containers

/-- The oracle for one whole run: the outcomes of every external call,
indexed by loop cycle.  `planLLM k` answers the planning call entered
at cycle `k` (cycle 0 is the entry-point invocation), `chooseLLM k` the
tool-choice pipeline of the cycle-`k` execute node, `dispatchTool k` the
tool invocation of that node, `reflectLLM k` the reflection call. -/
structure RunOracle where
  planLLM : Nat → Except String String
  chooseLLM : Nat → Except String ToolDecision
  dispatchTool : Nat → String → List (String × String) → Except String String
  reflectLLM : Nat → Except String String

/-- One cycle of the compiled graph after planning: `execute`, then
`reflect`, then the conditional edge — stop at `END` when `finished`,
otherwise go back to the `plan` node and loop.  `fuel` bounds the
recursion; the loop's own termination is proved separately. -/
def runFrom (orc : RunOracle) (fuel k : Nat) (s : AgentState) : AgentState :=
  match fuel with
  | 0 => s
  | fuel' + 1 =>
    let s1 := applyUpdate s (executeNode s (orc.chooseLLM k) (orc.dispatchTool k))
    let s2 := applyUpdate s1 (reflectNode s1 (orc.reflectLLM k))
    if s2.finished then s2
    else runFrom orc fuel' (k + 1) (applyUpdate s2 (planNode s2 (orc.planLLM (k + 1))))

/-- Every state the loop passes through from a post-planning state `s`:
`s`, the post-execute state, the post-reflect state, then (when the
conditional edge loops) the states of the remaining cycles starting
from the next post-planning state. -/
def traceFrom (orc : RunOracle) (fuel k : Nat) (s : AgentState) :
    List AgentState :=
  match fuel with
  | 0 => [s]
  | fuel' + 1 =>
    let s1 := applyUpdate s (executeNode s (orc.chooseLLM k) (orc.dispatchTool k))
    let s2 := applyUpdate s1 (reflectNode s1 (orc.reflectLLM k))
    if s2.finished then [s, s1, s2]
    else s :: s1 :: s2 ::
      traceFrom orc fuel' (k + 1) (applyUpdate s2 (planNode s2 (orc.planLLM (k + 1))))

/-- The `initial_state` dict built by `AgentGraph.run`. -/
def initialState (task : String) : AgentState :=
  { messages := [⟨"user", task⟩]
    currentTask := task
    plan := []
    toolResults := []
    iteration := 0
    finished := false }

/-- A full graph invocation: the entry point is the `plan` node, then
the execute/reflect loop. -/
def runGraph (orc : RunOracle) (fuel : Nat) (task : String) : AgentState :=
  let s0 := initialState task
  runFrom orc fuel 0 (applyUpdate s0 (planNode s0 (orc.planLLM 0)))

/-- All states of a full graph invocation. -/
def traceGraph (orc : RunOracle) (fuel : Nat) (task : String) :
    List AgentState :=
  let s0 := initialState task
  s0 :: traceFrom orc fuel 0 (applyUpdate s0 (planNode s0 (orc.planLLM 0)))

/-- The dict returned by `AgentGraph.run`: on success the final state's
results, plan and messages under `status: "success"`; when
`graph.ainvoke` raises, only `status: "error"` and the message — the
`except` branch carries no `results` key. -/
structure RunOutput where
  status : String
  results : Option (List StepResult)
  plan : Option (List String)
  messages : Option (List Message)
  error : Option String
deriving Repr, DecidableEq

/-- `AgentGraph.run`'s return value as a function of whether
`graph.ainvoke` returned a final state or raised. -/
def runOutput (outcome : Except String AgentState) : RunOutput :=
  match outcome with
  | .ok finalState =>
      ⟨"success", some finalState.toolResults, some finalState.plan,
        some finalState.messages, none⟩
  | .error e => ⟨"error", none, none, none, some e⟩

/-- An oracle under which reflection keeps continuing and the second
planning invocation parses to no steps: the first plan has two steps,
every tool choice is a registered tool, every dispatch succeeds, and
every reflection response is `CONTINUE`. -/
def orReplanEmpty : RunOracle :=
  { planLLM := fun k =>
      if k = 0 then .ok "1. a\n2. b" else .ok "no numbered steps"
    chooseLLM := fun _ => .ok ⟨some "docker_list_containers", []⟩
    dispatchTool := fun _ _ _ => .ok "ok"
    reflectLLM := fun _ => .ok "CONTINUE" }

/-- A planning response carrying fifteen valid numbered steps. -/
def plan15 : String :=
  "1. a\n2. a\n3. a\n4. a\n5. a\n6. a\n7. a\n8. a\n9. a\n10. a\n11. a\n12. a\n13. a\n14. a\n15. a"

/-- An oracle for the fifteen-step scenario: every planning invocation
returns the same fifteen-step plan, tool choices and dispatches
succeed, and reflection always answers `CONTINUE`. -/
def or15 : RunOracle :=
  { planLLM := fun _ => .ok plan15
    chooseLLM := fun _ => .ok ⟨some "docker_list_containers", []⟩
    dispatchTool := fun _ _ _ => .ok "ok"
    reflectLLM := fun _ => .ok "CONTINUE" }

/-- The oracle of the list-containers scenario: the plan is the single
step `1. List docker containers`, the tool choice resolves to
`docker_list_containers` with empty parameters, and the MCP server
reports two containers. -/
def orC6 : RunOracle :=
  { planLLM := fun _ => .ok "1. List docker containers"
    chooseLLM := fun _ => .ok ⟨some "docker_list_containers", []⟩
    dispatchTool := fun _ _ _ =>
      .ok (docker_list_containers ⟨none, ["web", "db"]⟩)
    reflectLLM := fun _ => .ok "CONTINUE" }

/-- An oracle all of whose external calls fail. -/
def orTrivial : RunOracle :=
  { planLLM := fun _ => .error "e"
    chooseLLM := fun _ => .error "e"
    dispatchTool := fun _ _ _ => .error "e"
    reflectLLM := fun _ => .error "e" }

/-- A mid-run state: one of two plan steps done, reflection has decided
to continue (`finished = false`). -/
def c2State : AgentState :=
  ⟨[], "t", ["1. a", "2. b"],
   [⟨some "1. a", some "docker_list_containers", some "ok", none⟩], 1, false⟩

/-- A mid-run state with remaining plan steps and the iteration below
the cap, so reflection consults the Completion Client. -/
def c8State : AgentState :=
  ⟨[], "t", ["1. a", "2. b", "3. c"], [], 1, false⟩

/-- A state whose single-step plan is exhausted. -/
def c9State : AgentState :=
  ⟨[], "t", ["1. a"],
   [⟨some "1. a", some "docker_list_containers", some "ok", none⟩], 1, false⟩

/-- A fresh state with a one-step plan. -/
def c7State : AgentState :=
  ⟨[], "t", ["1. a"], [], 0, false⟩

/-- A fresh state with an empty plan. -/
def emptyPlanState : AgentState :=
  ⟨[], "t", [], [], 0, false⟩

/-- Case analysis of `_execute_node`: the no-plan branch appends the
bare error result; the exhausted-plan branch only sets `finished`; and
every other branch appends exactly one result — populating exactly one
of `output`/`error` — and advances the iteration by one. -/
theorem executeNode_shape (s : AgentState) (c : Except String ToolDecision)
    (d : String → List (String × String) → Except String String) :
    (s.plan = [] ∧ executeNode s c d =
      { toolResults := [⟨none, none, none, some "No plan available"⟩] }) ∨
    (s.plan ≠ [] ∧ s.plan.length ≤ s.iteration ∧
      executeNode s c d = { finished := some true }) ∨
    (s.plan ≠ [] ∧ s.iteration < s.plan.length ∧
      ∃ r : StepResult,
        ((r.output.isSome ∧ r.error = none) ∨ (r.output = none ∧ r.error.isSome)) ∧
        executeNode s c d = { toolResults := [r], iteration := some (s.iteration + 1) }) := by
  unfold executeNode
  by_cases h1 : s.plan = []
  · exact Or.inl ⟨h1, by simp [h1]⟩
  · by_cases h2 : s.plan.length ≤ s.iteration
    · exact Or.inr (Or.inl ⟨h1, h2, by simp [h1, h2]⟩)
    · refine Or.inr (Or.inr ⟨h1, Nat.lt_of_not_le h2, ?_⟩)
      rcases c with e | td
      · exact ⟨⟨some (s.plan.getD s.iteration ""), none, none, some e⟩,
          Or.inr (by simp), by simp [h1, h2]⟩
      · rcases h3 : td.tool with _ | name
        · exact ⟨⟨some (s.plan.getD s.iteration ""), none, none,
            some "Unknown tool: None"⟩, Or.inr (by simp), by simp [h1, h2, h3]⟩
        · by_cases h4 : name ∈ AVAILABLE_TOOLS
          · rcases h5 : d name td.parameters with e | res
            · exact ⟨⟨some (s.plan.getD s.iteration ""), none, none, some e⟩,
                Or.inr (by simp), by simp [h1, h2, h3, h4, h5]⟩
            · exact ⟨⟨some (s.plan.getD s.iteration ""), some name, some res, none⟩,
                Or.inl (by simp), by simp [h1, h2, h3, h4, h5]⟩
          · exact ⟨⟨some (s.plan.getD s.iteration ""), none, none,
              some ("Unknown tool: " ++ name)⟩, Or.inr (by simp),
              by simp [h1, h2, h3, h4]⟩

/-- Case analysis of `_reflect_node`: it always returns exactly a
`finished` flag, and the flag can be `false` only when the cursor is
still below both the plan length and the iteration cap. -/
theorem reflectNode_shape (s : AgentState) (llm : Except String String) :
    ∃ b : Bool, reflectNode s llm = { finished := some b } ∧
      (b = false → s.iteration < s.plan.length ∧ s.iteration < MAX_ITERATIONS) := by
  unfold reflectNode
  by_cases h1 : s.plan.length ≤ s.iteration ∨ MAX_ITERATIONS ≤ s.iteration
  · exact ⟨true, by simp [h1], by simp⟩
  · rcases llm with e | content
    · exact ⟨true, by simp [h1], by simp⟩
    · by_cases h2 : strContains (pyUpper (pyStrip content)) "DONE"
      · exact ⟨true, by simp [h1, h2], by simp⟩
      · exact ⟨false, by simp [h1, h2], fun _ =>
          ⟨Nat.lt_of_not_le (fun h => h1 (Or.inl h)),
           Nat.lt_of_not_le (fun h => h1 (Or.inr h))⟩⟩

/-- Case analysis of `_plan_node`: it always returns exactly a plan and
one assistant message. -/
theorem planNode_shape (s : AgentState) (llm : Except String String) :
    ∃ p m, planNode s llm = { plan := some p, messages := [m] } := by
  unfold planNode
  rcases llm with e | text
  · exact ⟨["Error in planning"], ⟨"assistant", "Planning error: " ++ e⟩, rfl⟩
  · exact ⟨parsePlan text, ⟨"assistant", "Plan: " ++ text⟩, rfl⟩

/-- Unfolding lemma for the merged iteration channel. -/
theorem applyUpdate_iteration (s : AgentState) (u : NodeUpdate) :
    (applyUpdate s u).iteration = u.iteration.getD s.iteration := rfl

/-- Unfolding lemma for the merged plan channel. -/
theorem applyUpdate_plan (s : AgentState) (u : NodeUpdate) :
    (applyUpdate s u).plan = u.plan.getD s.plan := rfl

/-- Unfolding lemma for the merged finished channel. -/
theorem applyUpdate_finished (s : AgentState) (u : NodeUpdate) :
    (applyUpdate s u).finished = u.finished.getD s.finished := rfl

/-- Unfolding lemma for the appended results channel. -/
theorem applyUpdate_toolResults (s : AgentState) (u : NodeUpdate) :
    (applyUpdate s u).toolResults = s.toolResults ++ u.toolResults := rfl

/-- An execute invocation either keeps the cursor or advances it by
one, and it advances only when the cursor was inside the plan. -/
theorem exec_apply_iteration (s : AgentState) (c : Except String ToolDecision)
    (d : String → List (String × String) → Except String String) :
    (applyUpdate s (executeNode s c d)).iteration = s.iteration ∨
    ((applyUpdate s (executeNode s c d)).iteration = s.iteration + 1 ∧
      s.iteration < s.plan.length) := by
  rcases executeNode_shape s c d with ⟨h0, he⟩ | ⟨h0, hle, he⟩ | ⟨h0, hlt, r, hr, he⟩
  · exact Or.inl (by rw [he, applyUpdate_iteration]; rfl)
  · exact Or.inl (by rw [he, applyUpdate_iteration]; rfl)
  · exact Or.inr ⟨by rw [he, applyUpdate_iteration]; rfl, hlt⟩

/-- Reflection never changes the cursor. -/
theorem reflect_apply_iteration (s : AgentState) (llm : Except String String) :
    (applyUpdate s (reflectNode s llm)).iteration = s.iteration := by
  obtain ⟨b, he, hb⟩ := reflectNode_shape s llm
  rw [he, applyUpdate_iteration]
  rfl

/-- If reflection leaves the run unfinished, the cursor was below both
the plan length and the iteration cap. -/
theorem reflect_apply_finished_false (s : AgentState) (llm : Except String String)
    (h : (applyUpdate s (reflectNode s llm)).finished = false) :
    s.iteration < s.plan.length ∧ s.iteration < MAX_ITERATIONS := by
  obtain ⟨b, he, hb⟩ := reflectNode_shape s llm
  rw [he, applyUpdate_finished] at h
  simp at h
  exact hb h

/-- Planning never changes the cursor. -/
theorem plan_apply_iteration (s : AgentState) (llm : Except String String) :
    (applyUpdate s (planNode s llm)).iteration = s.iteration := by
  obtain ⟨p, m, he⟩ := planNode_shape s llm
  rw [he, applyUpdate_iteration]
  rfl

/-- Loop invariant: starting any number of cycles from a post-planning
state whose cursor is below the cap, every state the loop passes
through keeps the cursor at or below `MAX_ITERATIONS`. -/
theorem traceFrom_iteration_le (orc : RunOracle) :
    ∀ (fuel k : Nat) (s : AgentState), s.iteration < MAX_ITERATIONS →
      ∀ t ∈ traceFrom orc fuel k s, t.iteration ≤ MAX_ITERATIONS := by
  intro fuel
  induction fuel with
  | zero =>
    intro k s hs t ht
    unfold traceFrom at ht
    simp at ht
    subst ht
    omega
  | succ fuel ih =>
    intro k s hs t ht
    unfold traceFrom at ht
    dsimp only at ht
    have h1 : (applyUpdate s (executeNode s (orc.chooseLLM k) (orc.dispatchTool k))).iteration ≤ MAX_ITERATIONS := by
      rcases exec_apply_iteration s (orc.chooseLLM k) (orc.dispatchTool k) with h | ⟨h, _⟩ <;> omega
    have h2 : (applyUpdate (applyUpdate s (executeNode s (orc.chooseLLM k) (orc.dispatchTool k))) (reflectNode (applyUpdate s (executeNode s (orc.chooseLLM k) (orc.dispatchTool k))) (orc.reflectLLM k))).iteration = (applyUpdate s (executeNode s (orc.chooseLLM k) (orc.dispatchTool k))).iteration :=
      reflect_apply_iteration _ _
    split at ht
    · simp only [List.mem_cons, List.not_mem_nil, or_false] at ht
      rcases ht with rfl | rfl | rfl
      · omega
      · exact h1
      · omega
    · simp only [List.mem_cons] at ht
      rcases ht with rfl | rfl | rfl | hmem
      · omega
      · exact h1
      · omega
      · have hfin : (applyUpdate (applyUpdate s (executeNode s (orc.chooseLLM k) (orc.dispatchTool k))) (reflectNode (applyUpdate s (executeNode s (orc.chooseLLM k) (orc.dispatchTool k))) (orc.reflectLLM k))).finished = false := by
          rename_i hcond
          simp at hcond
          exact hcond
        have hlt := (reflect_apply_finished_false _ _ hfin).2
        refine ih (k+1) _ ?_ t hmem
        rw [plan_apply_iteration, h2]
        omega

/-- Claim C1, counterexample.  The claim asserts that after every Step
Executor invocation the results length equals the cursor.  In the run
driven by `orReplanEmpty`, reflection decides to continue, the second
planning invocation parses to an empty plan, and the next execute
invocation appends the `No plan available` error result without
advancing the cursor: the post-execute state (trace position 5) has two
results but cursor 1, and the run's final state likewise has
`results.length = 2 ≠ 1 = cursor`. -/
theorem C1_counterexample :
    ((traceGraph orReplanEmpty 5 "task").getD 5 (initialState "task")).toolResults.length = 2 ∧
    ((traceGraph orReplanEmpty 5 "task").getD 5 (initialState "task")).iteration = 1 ∧
    (runGraph orReplanEmpty 5 "task").toolResults.length ≠
      (runGraph orReplanEmpty 5 "task").iteration := by decide

/-- Claim C1, amended.  On any state with a nonempty plan, a Step
Executor invocation preserves `results.length == cursor`: it either
appends exactly one result and advances the cursor by one, or — when
the cursor has reached the end of the plan — appends nothing and leaves
the cursor unchanged.  (On an empty plan the node appends one error
result without advancing, breaking the equality.) -/
theorem C1_theorem :
    ∀ (s : AgentState) (c : Except String ToolDecision)
      (d : String → List (String × String) → Except String String),
      s.plan ≠ [] → s.toolResults.length = s.iteration →
      (applyUpdate s (executeNode s c d)).toolResults.length =
        (applyUpdate s (executeNode s c d)).iteration ∧
      (((applyUpdate s (executeNode s c d)).toolResults.length =
          s.toolResults.length + 1 ∧
        (applyUpdate s (executeNode s c d)).iteration = s.iteration + 1) ∨
       ((applyUpdate s (executeNode s c d)).toolResults = s.toolResults ∧
        (applyUpdate s (executeNode s c d)).iteration = s.iteration ∧
        s.plan.length ≤ s.iteration)) := by
  intro s c d hne hinv
  rcases executeNode_shape s c d with ⟨h0, he⟩ | ⟨h0, hle, he⟩ | ⟨h0, hlt, r, hr, he⟩
  · exact absurd h0 hne
  · rw [he]
    refine ⟨by simp [applyUpdate, hinv], Or.inr ⟨by simp [applyUpdate], by simp [applyUpdate], hle⟩⟩
  · rw [he]
    exact ⟨by simp [applyUpdate, hinv], Or.inl ⟨by simp [applyUpdate], by simp [applyUpdate]⟩⟩

/-- Claim C1, witness: the amended theorem applied to a fresh state
with a one-step plan and a failing tool-choice call. -/
theorem C1_witness :
    (applyUpdate c7State (executeNode c7State (Except.error "boom")
        (fun _ _ => Except.ok "ok"))).toolResults.length =
      (applyUpdate c7State (executeNode c7State (Except.error "boom")
        (fun _ _ => Except.ok "ok"))).iteration :=
  (C1_theorem c7State (Except.error "boom") (fun _ _ => Except.ok "ok")
    (by decide) (by decide)).1

/-- Claim C2, counterexample.  The claim asserts the continue
transition leads to the Step Executor and the plan is never replaced.
In `_build_graph` the conditional edge maps `"continue"` to the `plan`
node, and re-entering the plan node overwrites the plan field: on the
mid-run state `c2State` (reflection decided to continue), the next node
is `"plan"`, not `"execute"`, and a planning invocation changes the
plan. -/
theorem C2_counterexample :
    nextNodeAfterReflect c2State = "plan" ∧
    nextNodeAfterReflect c2State ≠ "execute" ∧
    (applyUpdate c2State (planNode c2State (Except.ok "1. x"))).plan ≠
      c2State.plan := by decide

/-- Claim C2, amended.  Whenever reflection decides to continue
(`finished = false`), the transition taken leads back to the Plan
Generator (node `"plan"`), re-entering PLANNING, and that planning
invocation replaces the plan field with the newly parsed plan; PLANNING
is therefore entered exactly once only in runs whose reflection never
decides to continue. -/
theorem C2_theorem :
    ∀ s : AgentState, s.finished = false →
      nextNodeAfterReflect s = "plan" ∧
      ∀ text, (applyUpdate s (planNode s (Except.ok text))).plan = parsePlan text := by
  intro s h
  constructor
  · unfold nextNodeAfterReflect shouldContinue
    rw [h]
    rfl
  · intro text
    unfold planNode
    rw [applyUpdate_plan]
    rfl

/-- Claim C2, witness: the amended theorem applied to the concrete
mid-run state `c2State`. -/
theorem C2_witness :
    nextNodeAfterReflect c2State = "plan" ∧
    (applyUpdate c2State (planNode c2State (Except.ok "1. x"))).plan =
      parsePlan "1. x" :=
  ⟨(C2_theorem c2State (by decide)).1, (C2_theorem c2State (by decide)).2 "1. x"⟩

/-- Claim C3, counterexample.  The claim asserts the error output still
contains every accumulated StepResult.  The `except` branch of
`AgentGraph.run` returns only `status` and `error`: on the fault
`"boom"` the output's `results` key is absent, whatever results had
accumulated. -/
theorem C3_counterexample :
    (runOutput (Except.error "boom")).status = "error" ∧
    (runOutput (Except.error "boom")).results = none := by decide

/-- Claim C3, amended.  A run in which `graph.ainvoke` raises produces
an output with status `"error"` carrying only the exception message:
the accumulated partial results are dropped, not returned. -/
theorem C3_theorem :
    ∀ e : String, runOutput (Except.error e) =
      ⟨"error", none, none, none, some e⟩ :=
  fun _ => rfl

/-- Claim C4, counterexample.  The claim asserts the cursor never
exceeds the plan length.  In the run driven by `orReplanEmpty`,
re-planning after one executed step replaces the two-step plan with an
empty one, leaving the final cursor 1 strictly above the plan length
0. -/
theorem C4_counterexample :
    (runGraph orReplanEmpty 5 "task").plan.length <
      (runGraph orReplanEmpty 5 "task").iteration := by decide

/-- Claim C4, amended.  At every point of every run the cursor never
exceeds `MAX_ITERATIONS` (10); a single Step Executor invocation never
pushes the cursor past the current plan length (it advances only when
`cursor < plan.length`), so the cursor can exceed the plan length only
when re-planning shrinks the plan below it; and the fifteen-step
scenario holds: the run terminates at cursor 10 with `finished = true`,
exactly 10 results, the executed steps being the first ten of the
fifteen parsed plan steps. -/
theorem C4_theorem :
    (∀ (orc : RunOracle) (fuel : Nat) (task : String) (t : AgentState),
        t ∈ traceGraph orc fuel task → t.iteration ≤ MAX_ITERATIONS) ∧
    (∀ (s : AgentState) (c : Except String ToolDecision)
        (d : String → List (String × String) → Except String String),
        s.iteration ≤ s.plan.length →
        (applyUpdate s (executeNode s c d)).iteration ≤
          (applyUpdate s (executeNode s c d)).plan.length) ∧
    ((parsePlan plan15).length = 15 ∧
      (runGraph or15 20 "task").iteration = 10 ∧
      (runGraph or15 20 "task").finished = true ∧
      (runGraph or15 20 "task").toolResults.length = 10 ∧
      (runGraph or15 20 "task").toolResults.map StepResult.step =
        ((parsePlan plan15).take 10).map some) := by
  refine ⟨?_, ?_, by decide⟩
  · intro orc fuel task t ht
    unfold traceGraph at ht
    dsimp only at ht
    rcases List.mem_cons.1 ht with rfl | hmem
    · simp [initialState, MAX_ITERATIONS]
    · refine traceFrom_iteration_le orc fuel 0 _ ?_ t hmem
      rw [plan_apply_iteration]
      simp [initialState, MAX_ITERATIONS]
  · intro s c d h
    rcases executeNode_shape s c d with ⟨h0, he⟩ | ⟨h0, hle, he⟩ | ⟨h0, hlt, r, hr, he⟩ <;>
      rw [he, applyUpdate_iteration, applyUpdate_plan] <;> simp <;> omega

/-- Claim C4, witness: the amended theorem's cap invariant applied to
the initial state of a run, and its per-step plan bound applied to a
fresh one-step-plan state. -/
theorem C4_witness :
    (initialState "x").iteration ≤ MAX_ITERATIONS ∧
    (applyUpdate c7State (executeNode c7State (Except.error "boom")
        (fun _ _ => Except.ok "ok"))).iteration ≤
      (applyUpdate c7State (executeNode c7State (Except.error "boom")
        (fun _ _ => Except.ok "ok"))).plan.length :=
  ⟨C4_theorem.1 orTrivial 0 "x" (initialState "x") (by decide),
   C4_theorem.2.1 c7State (Except.error "boom") (fun _ _ => Except.ok "ok")
     (by decide)⟩

/-- Claim C5.  A Plan Generator invocation whose Completion Client call
fails returns exactly the one-element plan `["Error in planning"]` —
never an empty plan and, the node being total, never a propagated
exception — and the graph's unconditional edge out of the planning
entry point leads into execution. -/
theorem C5_theorem :
    ∀ (s : AgentState) (e : String),
      (planNode s (Except.error e)).plan = some ["Error in planning"] ∧
      (applyUpdate s (planNode s (Except.error e))).plan = ["Error in planning"] ∧
      ["Error in planning"] ≠ ([] : List String) ∧
      staticEdges.lookup entryPoint = some "execute" := by
  intro s e
  exact ⟨rfl, by rw [applyUpdate_plan]; rfl, by decide, by decide⟩

/-- Claim C6.  Every StepResult the Step Executor appends populates
exactly one of `output` and `error`; and in the list-containers
scenario the single appended result has the step text, the tool name,
output `Found 2 containers: [web, db]` and no error, with the run
finished at cursor 1. -/
theorem C6_theorem :
    (∀ (s : AgentState) (c : Except String ToolDecision)
        (d : String → List (String × String) → Except String String)
        (r : StepResult), r ∈ (executeNode s c d).toolResults →
        ((r.output.isSome ∧ r.error = none) ∨ (r.output = none ∧ r.error.isSome))) ∧
    ((runGraph orC6 5 "list containers").toolResults =
        [⟨some "1. List docker containers", some "docker_list_containers",
          some "Found 2 containers: [web, db]", none⟩] ∧
      (runGraph orC6 5 "list containers").finished = true ∧
      (runGraph orC6 5 "list containers").iteration = 1) := by
  refine ⟨?_, by decide⟩
  intro s c d r hr
  rcases executeNode_shape s c d with ⟨h0, he⟩ | ⟨h0, hle, he⟩ | ⟨h0, hlt, r2, hr2, he⟩ <;>
    rw [he] at hr <;> simp at hr
  · rw [hr]
    exact Or.inr ⟨rfl, rfl⟩
  · rw [hr]
    exact hr2

/-- Claim C6, witness: the exactly-one-of-output-and-error property
applied to the result appended on an empty-plan state. -/
theorem C6_witness :
    ((⟨none, none, none, some "No plan available"⟩ : StepResult).output.isSome ∧
      (⟨none, none, none, some "No plan available"⟩ : StepResult).error = none) ∨
    ((⟨none, none, none, some "No plan available"⟩ : StepResult).output = none ∧
      (⟨none, none, none, some "No plan available"⟩ : StepResult).error.isSome) :=
  C6_theorem.1 emptyPlanState (Except.error "e") (fun _ _ => Except.ok "ok")
    ⟨none, none, none, some "No plan available"⟩ (by decide)

/-- Claim C7.  When the chosen tool name is not in the registry, the
Step Executor records a result whose error is `Unknown tool: <name>`,
is independent of the dispatcher (no dispatch happens), and still
advances the cursor by one. -/
theorem C7_theorem :
    ∀ (s : AgentState) (name : String) (ps : List (String × String))
      (d d2 : String → List (String × String) → Except String String),
      s.plan ≠ [] → s.iteration < s.plan.length → name ∉ AVAILABLE_TOOLS →
      executeNode s (Except.ok ⟨some name, ps⟩) d =
        { toolResults := [⟨some (s.plan.getD s.iteration ""), none, none,
            some ("Unknown tool: " ++ name)⟩]
          iteration := some (s.iteration + 1) } ∧
      executeNode s (Except.ok ⟨some name, ps⟩) d =
        executeNode s (Except.ok ⟨some name, ps⟩) d2 ∧
      (applyUpdate s (executeNode s (Except.ok ⟨some name, ps⟩) d)).iteration =
        s.iteration + 1 := by
  intro s name ps d d2 h1 h2 h3
  have h2x : ¬(s.plan.length ≤ s.iteration) := Nat.not_le.2 h2
  have key : ∀ d3 : String → List (String × String) → Except String String,
      executeNode s (Except.ok ⟨some name, ps⟩) d3 =
        { toolResults := [⟨some (s.plan.getD s.iteration ""), none, none,
            some ("Unknown tool: " ++ name)⟩]
          iteration := some (s.iteration + 1) } := by
    intro d3
    unfold executeNode
    simp [h1, h2x, h3]
  exact ⟨key d, (key d).trans (key d2).symm,
    by rw [key d, applyUpdate_iteration]; rfl⟩

/-- Claim C7, witness: the theorem applied to the spec's scenario,
tool name `nonexistent_tool` on a fresh one-step-plan state. -/
theorem C7_witness :
    executeNode c7State (Except.ok ⟨some "nonexistent_tool", []⟩)
        (fun _ _ => Except.ok "ok") =
      { toolResults := [⟨some "1. a", none, none,
          some "Unknown tool: nonexistent_tool"⟩]
        iteration := some 1 } :=
  (C7_theorem c7State "nonexistent_tool" [] (fun _ _ => Except.ok "ok")
    (fun _ _ => Except.error "never") (by decide) (by decide) (by decide)).1

/-- Claim C8, counterexample.  The claim asserts that when the
Reflector consults the Completion Client, any response not containing
`DONE` defaults to `finished = true`.  On the mid-run state `c8State`
(cursor below both bounds, so the client is consulted), the response
`CONTINUE` yields `finished = false`. -/
theorem C8_counterexample :
    c8State.iteration < c8State.plan.length ∧
    c8State.iteration < MAX_ITERATIONS ∧
    (applyUpdate c8State (reflectNode c8State (Except.ok "CONTINUE"))).finished =
      false := by decide

/-- Claim C8, amended.  When the Reflector consults the Completion
Client (cursor below both the plan length and `MAX_ITERATIONS`), a
response containing `DONE` as a case-insensitive substring terminates
the run; a Completion Client failure defaults to `finished = true`
(fail-safe); and any other response yields `finished = false`, so the
run continues. -/
theorem C8_theorem :
    ∀ (s : AgentState) (content e : String),
      s.iteration < s.plan.length → s.iteration < MAX_ITERATIONS →
      (strContains (pyUpper (pyStrip content)) "DONE" = true →
        reflectNode s (Except.ok content) = { finished := some true }) ∧
      (strContains (pyUpper (pyStrip content)) "DONE" = false →
        reflectNode s (Except.ok content) = { finished := some false }) ∧
      reflectNode s (Except.error e) = { finished := some true } := by
  intro s content e h1 h2
  have hcond : ¬(s.plan.length ≤ s.iteration ∨ MAX_ITERATIONS ≤ s.iteration) := by
    push_neg
    exact ⟨h1, h2⟩
  refine ⟨?_, ?_, ?_⟩
  · intro h
    unfold reflectNode
    simp [hcond, h]
  · intro h
    unfold reflectNode
    simp [hcond, h]
  · unfold reflectNode
    simp [hcond]

/-- Claim C8, witness: the amended theorem's DONE branch applied to the
lowercase response `done.` on the mid-run state `c8State`. -/
theorem C8_witness :
    reflectNode c8State (Except.ok "done.") = { finished := some true } :=
  (C8_theorem c8State "done." "boom" (by decide) (by decide)).1 (by decide)

/-- Claim C9.  On any state whose cursor has reached the plan length,
the Reflector returns `finished = true` deterministically: the result
is a fixed value, identical for every Completion Client outcome, so
re-running it on the unchanged state always gives `finished = true`
without consulting the client. -/
theorem C9_theorem :
    ∀ (s : AgentState) (llm llm2 : Except String String),
      s.plan.length ≤ s.iteration →
      reflectNode s llm = { finished := some true } ∧
      reflectNode s llm = reflectNode s llm2 ∧
      (applyUpdate s (reflectNode s llm)).finished = true := by
  intro s llm llm2 h
  have key : ∀ l : Except String String,
      reflectNode s l = { finished := some true } := by
    intro l
    unfold reflectNode
    simp [h]
  exact ⟨key llm, (key llm).trans (key llm2).symm,
    by rw [key llm, applyUpdate_finished]; rfl⟩

/-- Claim C9, witness: the theorem applied to a state whose one-step
plan is exhausted. -/
theorem C9_witness :
    reflectNode c9State (Except.ok "CONTINUE") = { finished := some true } :=
  (C9_theorem c9State (Except.ok "CONTINUE") (Except.error "x") (by decide)).1

/-- Claim C10.  On any state with an empty plan, the Step Executor
returns exactly the one-element update appending
`{error: "No plan available"}` — a result with no step text and no
tool — leaving the cursor and the finished flag unchanged and appending
that result to the audit trail. -/
theorem C10_theorem :
    ∀ (s : AgentState) (c : Except String ToolDecision)
      (d : String → List (String × String) → Except String String),
      s.plan = [] →
      executeNode s c d =
        { toolResults := [⟨none, none, none, some "No plan available"⟩] } ∧
      (applyUpdate s (executeNode s c d)).iteration = s.iteration ∧
      (applyUpdate s (executeNode s c d)).finished = s.finished ∧
      (applyUpdate s (executeNode s c d)).toolResults =
        s.toolResults ++ [⟨none, none, none, some "No plan available"⟩] := by
  intro s c d h
  have key : executeNode s c d =
      { toolResults := [⟨none, none, none, some "No plan available"⟩] } := by
    unfold executeNode
    simp [h]
  refine ⟨key, ?_, ?_, ?_⟩
  · rw [key, applyUpdate_iteration]
    rfl
  · rw [key, applyUpdate_finished]
    rfl
  · rw [key, applyUpdate_toolResults]

/-- Claim C10, witness: the theorem applied to the fresh empty-plan
state. -/
theorem C10_witness :
    executeNode emptyPlanState (Except.ok ⟨some "docker_list_containers", []⟩)
        (fun _ _ => Except.ok "ok") =
      { toolResults := [⟨none, none, none, some "No plan available"⟩] } ∧
    (applyUpdate emptyPlanState (executeNode emptyPlanState
        (Except.ok ⟨some "docker_list_containers", []⟩)
        (fun _ _ => Except.ok "ok"))).iteration = emptyPlanState.iteration :=
  ⟨(C10_theorem emptyPlanState (Except.ok ⟨some "docker_list_containers", []⟩)
      (fun _ _ => Except.ok "ok") (by decide)).1,
   (C10_theorem emptyPlanState (Except.ok ⟨some "docker_list_containers", []⟩)
      (fun _ _ => Except.ok "ok") (by decide)).2.1⟩
